import Mathlib

/-!
Shallow embedding of the weather-tracking application (src/main.py) and
verification of its specification.

Times are modelled as integers counting seconds (`datetime` values); the
staleness threshold `timedelta(minutes=15)` is 900 seconds.  Temperatures and
coordinates are rationals.  The external world (the aiohttp session hitting
the Open-Meteo endpoint) is an oracle `Net` mapping a coordinate pair to the
outcome of the HTTP round trip; `fetch_weather` processes that outcome exactly
as the Python function does.  Database rows are keyed by their integer primary
key `id`; row mutation inside the refresh loop is id-keyed, matching both the
object identity of the ORM rows and the store interface.
-/

namespace Weather

/-- Row of the `cities` table: name, coordinates, optional temperature and
optional refresh timestamp (`temperature`/`updated_at` are nullable). -/
structure City where
  id : Nat
  name : String
  latitude : ℚ
  longitude : ℚ
  temperature : Option ℚ
  updated_at : Option Int
  deriving Repr, DecidableEq

/-- Row of the `default_cities` table used by reset. -/
structure DefaultCity where
  id : Nat
  name : String
  latitude : ℚ
  longitude : ℚ
  deriving Repr, DecidableEq

/-- Outcome of one HTTP round trip to the weather provider, as observed by
`fetch_weather`: either an exception (network/transport failure or a parse
error while reading the body) or a response with a status code and the result
of looking up `data.get("current_weather", \x7b\x7d).get("temperature")`. -/
inductive FetchOutcome where
  | exn : FetchOutcome
  | response (status : Nat) (temperature : Option ℚ) : FetchOutcome
  deriving Repr, DecidableEq

/-- The external network, as an oracle from query coordinates to the outcome
of the HTTP GET against the provider. -/
abbrev Net := ℚ → ℚ → FetchOutcome

/-- `fetch_weather` (src/main.py:63-73): on an exception return `none`; on a
response, return the temperature field only when the status is 200, else fall
through to `return None`. -/
def fetch_weather (net : Net) (latitude longitude : ℚ) : Option ℚ :=
  match net latitude longitude with
  | FetchOutcome.exn => none
  | FetchOutcome.response status temperature =>
      if status = 200 then temperature else none

/-- `fetch_all_weather` (src/main.py:76-83): one `fetch_weather` task per
city, gathered in order (`asyncio.gather` returns results positionally). -/
def fetch_all_weather (net : Net) (cities : List City) : List (Option ℚ) :=
  cities.map fun c => fetch_weather net c.latitude c.longitude

/-- `timedelta(minutes=15)`, in seconds. -/
def fifteenMinutes : Int := 900

/-- The staleness test of src/main.py:181:
`city.updated_at is None or (now - city.updated_at) >= timedelta(minutes=15)`. -/
def isStale (now : Int) (c : City) : Bool :=
  match c.updated_at with
  | none => true
  | some t => decide (fifteenMinutes ≤ now - t)

/-- One id-keyed store write: overwrite temperature and timestamp of the row
with primary key `cid` (the loop body of src/main.py:189-192 mutates the ORM
row, i.e. the store entry with that id). -/
def applyReading (now : Int) (cid : Nat) (t : ℚ) (cities : List City) : List City :=
  cities.map fun c =>
    if c.id = cid then { c with temperature := some t, updated_at := some now } else c

/-- Observable result of one refresh cycle: the rows after the cycle, the
fetch calls issued (which row, and the coordinates passed), and whether
`db.commit()` ran. -/
structure UpdateResult where
  cities : List City
  calls : List (City × ℚ × ℚ)
  committed : Bool
  deriving Repr, DecidableEq

/-- `update_weather` (src/main.py:172-196): filter the rows by the staleness
test, and if any qualify, fetch them all concurrently, write back the
non-`None` temperatures together with the single `now` captured at the start,
and commit. -/
def update_weather (cities : List City) (now : Int) (net : Net) : UpdateResult :=
  let cities_to_update := cities.filter (isStale now)
  if cities_to_update.isEmpty then
    { cities := cities, calls := [], committed := false }
  else
    let temperatures := fetch_all_weather net cities_to_update
    { cities :=
        (cities_to_update.zip temperatures).foldl
          (fun acc p =>
            match p.2 with
            | none => acc
            | some t => applyReading now p.1.id t acc)
          cities,
      calls := cities_to_update.map fun c => (c, c.latitude, c.longitude),
      committed := true }

/-- `add_city` (src/main.py:200-220): insert a fresh row (null temperature
and timestamp) unless a row with this name already exists. -/
def add_city (cities : List City) (newId : Nat) (name : String)
    (latitude longitude : ℚ) : List City :=
  if cities.any (fun c => c.name == name) then cities
  else cities ++ [{ id := newId, name := name, latitude := latitude,
                    longitude := longitude, temperature := none, updated_at := none }]

/-- `reset_cities` (src/main.py:152-169): delete every row of `cities`, then
re-insert one row per default city, with null temperature and timestamp.  The
primary keys of the new rows are assigned by the database; we model them as
`idStart + index`. -/
def reset_cities (cities : List City) (defaults : List DefaultCity)
    (idStart : Nat) : List City :=
  (defaults.enum).map fun p =>
    { id := idStart + p.1, name := p.2.name, latitude := p.2.latitude,
      longitude := p.2.longitude, temperature := none, updated_at := none }

/-- The spec invariant: `temperature` is present iff `updated_at` is. -/
def cityInv (c : City) : Prop := c.temperature.isSome = c.updated_at.isSome

instance (c : City) : Decidable (cityInv c) :=
  inferInstanceAs (Decidable (c.temperature.isSome = c.updated_at.isSome))

/-- What one refresh cycle does to a single row: nothing if it is fresh;
otherwise its own fetch result is applied when present. -/
def stepCity (net : Net) (now : Int) (c : City) : City :=
  if isStale now c then
    match fetch_weather net c.latitude c.longitude with
    | none => c
    | some t => { c with temperature := some t, updated_at := some now }
  else c

/-- Effect of one loop iteration of the apply phase on a single row `x`:
if the iteration's pair carries a temperature and `x` is the row it targets,
`x` is overwritten. -/
def gstep (now : Int) (x : City) (p : City × Option ℚ) : City :=
  match p.2 with
  | none => x
  | some t =>
      if x.id = p.1.id then { x with temperature := some t, updated_at := some now } else x

theorem gstep_of_ne {now : Int} {x : City} {p : City × Option ℚ}
    (h : p.1.id ≠ x.id) : gstep now x p = x := by
  rcases p with ⟨c0, t⟩
  cases t with
  | none => rfl
  | some v =>
      have hne : x.id ≠ c0.id := fun he => h he.symm
      simp [gstep, hne]

theorem gstep_id (now : Int) (x : City) (p : City × Option ℚ) :
    (gstep now x p).id = x.id := by
  rcases p with ⟨c0, t⟩
  cases t with
  | none => rfl
  | some v =>
      simp only [gstep]
      split <;> rfl

/-- The apply-phase fold (src/main.py:189-192) acts pointwise: the store after
the loop is the pointwise image of the store before it, each row receiving
every iteration whose pair targets its id. -/
theorem applyFold_eq_map (now : Int) :
    ∀ (ps : List (City × Option ℚ)) (acc : List City),
      ps.foldl
        (fun acc p =>
          match p.2 with
          | none => acc
          | some t => applyReading now p.1.id t acc) acc
      = acc.map (fun x => ps.foldl (gstep now) x) := by
  intro ps
  induction ps with
  | nil => intro acc; simp
  | cons p ps ih =>
      intro acc
      have hstep :
          (match p.2 with
           | none => acc
           | some t => applyReading now p.1.id t acc)
          = acc.map (fun x => gstep now x p) := by
        rcases p with ⟨c0, t⟩
        cases t with
        | none => simp [gstep]
        | some v => simp [applyReading, gstep]
      rw [List.foldl_cons, hstep, ih, List.map_map]
      rfl

/-- Folding the per-row step over pairs none of which target `x` leaves `x`
unchanged. -/
theorem foldl_gstep_of_ne (now : Int) (f : City → Option ℚ) :
    ∀ (l : List City) (x : City), (∀ u ∈ l, u.id ≠ x.id) →
      l.foldl (fun x u => gstep now x (u, f u)) x = x := by
  intro l
  induction l with
  | nil => intro x _; rfl
  | cons u l ih =>
      intro x h
      rw [List.foldl_cons, gstep_of_ne (h u (by simp))]
      exact ih x (fun q hq => h q (by simp [hq]))

theorem zip_self_map {α β : Type} (f : α → β) :
    ∀ l : List α, l.zip (l.map f) = l.map (fun a => (a, f a)) := by
  intro l
  induction l with
  | nil => rfl
  | cons a l ih => rw [List.map_cons, List.zip_cons_cons, ih, List.map_cons]

theorem stepCity_id (net : Net) (now : Int) (c : City) :
    (stepCity net now c).id = c.id := by
  simp only [stepCity]
  split
  · split <;> rfl
  · rfl

/-- Row-level evaluation of the apply phase: under distinct primary keys, the
fold over the zipped (stale row, fetched temperature) pairs sends each row of
the store to `stepCity` of itself. -/
theorem foldl_gstep_eval (cities : List City) (now : Int) (net : Net)
    (hnd : (cities.map City.id).Nodup) (c : City) (hc : c ∈ cities) :
    ((cities.filter (isStale now)).zip
        (fetch_all_weather net (cities.filter (isStale now)))).foldl (gstep now) c
      = stepCity net now c := by
  set f : City → Option ℚ := fun u => fetch_weather net u.latitude u.longitude with hf
  set toU : List City := cities.filter (isStale now) with htoU
  have hz : toU.zip (fetch_all_weather net toU) = toU.map (fun u => (u, f u)) :=
    zip_self_map f toU
  rw [hz, List.foldl_map]
  have hinj : ∀ u ∈ cities, u.id = c.id → u = c := by
    intro u hu he
    exact List.inj_on_of_nodup_map hnd hu hc he
  by_cases hst : isStale now c
  · -- c is stale: it occurs exactly once in toU, everything else misses it
    have hcto : c ∈ toU := List.mem_filter.mpr ⟨hc, hst⟩
    obtain ⟨l₁, l₂, hsplit⟩ := List.append_of_mem hcto
    have hndU : (toU.map City.id).Nodup :=
      hnd.sublist ((List.filter_sublist cities).map City.id)
    rw [hsplit] at hndU
    rw [List.map_append, List.map_cons] at hndU
    rcases List.nodup_append.mp hndU with ⟨_, hnd2, hdisj⟩
    have hl2 : ∀ u ∈ l₂, u.id ≠ c.id := by
      intro u hu he
      exact (List.nodup_cons.mp hnd2).1 (he ▸ List.mem_map_of_mem City.id hu)
    have hl1 : ∀ u ∈ l₁, u.id ≠ c.id := by
      intro u hu he
      exact hdisj (he ▸ List.mem_map_of_mem City.id hu) (by simp)
    rw [hsplit, List.foldl_append, foldl_gstep_of_ne now f l₁ c hl1]
    simp only [List.foldl_cons]
    have hself : gstep now c (c, f c) = stepCity net now c := by
      simp only [hf]
      cases hfc : fetch_weather net c.latitude c.longitude with
      | none => simp [gstep, stepCity, hst, hfc]
      | some v => simp [gstep, stepCity, hst, hfc]
    rw [hself]
    exact foldl_gstep_of_ne now f l₂ (stepCity net now c)
      (fun u hu => by rw [stepCity_id]; exact hl2 u hu)
  · -- c is fresh: no pair in toU targets it
    have hmiss : ∀ u ∈ toU, u.id ≠ c.id := by
      intro u hu he
      rcases List.mem_filter.mp hu with ⟨humem, hust⟩
      exact hst ((hinj u humem he) ▸ hust)
    rw [foldl_gstep_of_ne now f toU c hmiss]
    simp [stepCity, hst]

/-- Master lemma: under distinct primary keys, the store after one refresh
cycle is the pointwise image of the store before it under `stepCity`. -/
theorem update_weather_cities_eq (cities : List City) (now : Int) (net : Net)
    (hnd : (cities.map City.id).Nodup) :
    (update_weather cities now net).cities = cities.map (stepCity net now) := by
  unfold update_weather
  by_cases hE : (cities.filter (isStale now)).isEmpty
  · simp only [hE, if_true]
    have hnone : ∀ c ∈ cities, isStale now c = false := by
      intro c hc
      have := List.filter_eq_nil_iff.mp (List.isEmpty_iff.mp hE) c hc
      exact Bool.not_eq_true _ ▸ Bool.of_not_eq_true this
    have : cities.map (stepCity net now) = cities.map (fun c => c) :=
      List.map_congr_left (fun c hc => by simp [stepCity, hnone c hc])
    rw [this, List.map_id']
  · simp only [hE, if_false]
    rw [applyFold_eq_map]
    exact List.map_congr_left (fun c hc => foldl_gstep_eval cities now net hnd c hc)

/-- The fetch calls issued by one refresh cycle are exactly one per stale row,
carrying that row's coordinates. -/
theorem update_weather_calls_eq (cities : List City) (now : Int) (net : Net) :
    (update_weather cities now net).calls
      = (cities.filter (isStale now)).map (fun c => (c, c.latitude, c.longitude)) := by
  unfold update_weather
  by_cases hE : (cities.filter (isStale now)).isEmpty
  · simp only [hE, if_true]
    rw [List.isEmpty_iff.mp hE]
    rfl
  · simp [hE]

/-- In a duplicate-free list, filtering for one of its members yields exactly
that member. -/
theorem filter_eq_self_singleton {α : Type} [DecidableEq α] {c : α} :
    ∀ {l : List α}, l.Nodup → c ∈ l → l.filter (fun u => decide (u = c)) = [c] := by
  intro l
  induction l with
  | nil => intro _ h; cases h
  | cons a l ih =>
      intro hnd hmem
      rcases List.nodup_cons.mp hnd with ⟨ha, hl⟩
      rcases List.mem_cons.mp hmem with h | h
      · subst h
        have hnil : l.filter (fun u => decide (u = c)) = [] :=
          List.filter_eq_nil_iff.mpr (fun u hu => by
            simp only [decide_eq_true_eq]
            intro he
            exact ha (he ▸ hu))
        simp [List.filter_cons, hnil]
      · have hac : ¬(a = c) := fun he => ha (he ▸ h)
        simp [List.filter_cons, hac, ih hl h]

/-- The apply-phase fold preserves the reading/timestamp invariant: each loop
iteration either leaves a row alone or sets reading and timestamp together. -/
theorem foldl_apply_preserves_inv (now : Int) :
    ∀ (ps : List (City × Option ℚ)) (acc : List City),
      (∀ c ∈ acc, cityInv c) →
      ∀ c ∈ ps.foldl
          (fun acc p =>
            match p.2 with
            | none => acc
            | some t => applyReading now p.1.id t acc) acc, cityInv c := by
  intro ps
  induction ps with
  | nil => intro acc h; exact h
  | cons p ps ih =>
      intro acc h
      rw [List.foldl_cons]
      apply ih
      rcases p with ⟨c0, t⟩
      cases t with
      | none => exact h
      | some v =>
          intro c hc
          rcases List.mem_map.mp hc with ⟨x, hx, he⟩
          rw [← he]
          by_cases hid : x.id = c0.id
          · rw [if_pos hid]; rfl
          · rw [if_neg hid]; exact h x hx

/-- Claim C1: for every entry of the refresh cycle (a stale entry) whose fetch
returns a value `v`, after the cycle that entry holds reading `v` and
timestamp `now`, the single timestamp captured at the start of the cycle. -/
theorem update_weather_applies_fetched_value
    (cities : List City) (now : Int) (net : Net) (i : Nat) (c : City) (v : ℚ)
    (hnd : (cities.map City.id).Nodup)
    (hi : cities[i]? = some c)
    (hst : isStale now c = true)
    (hv : fetch_weather net c.latitude c.longitude = some v) :
    ((update_weather cities now net).cities)[i]?
      = some { c with temperature := some v, updated_at := some now } := by
  rw [update_weather_cities_eq cities now net hnd, List.getElem?_map, hi]
  simp [stepCity, hst, hv]

/-- Claim C1, instantiated: entry "A" is stale, its fetch returns 21, and
after the cycle it carries reading 21 and the cycle's timestamp. -/
theorem update_weather_applies_fetched_value_witness :
    ((update_weather
        [⟨1, "A", 1, 1, none, none⟩,
         ⟨2, "B", 2, 2, some 7, some 8800⟩,
         ⟨3, "C", 3, 3, some 9, some 9700⟩]
        10000
        (fun la _ => if la = 1 then FetchOutcome.response 200 (some 21)
                     else FetchOutcome.exn)).cities)[0]?
      = some ⟨1, "A", 1, 1, some 21, some 10000⟩ :=
  update_weather_applies_fetched_value
    [⟨1, "A", 1, 1, none, none⟩,
     ⟨2, "B", 2, 2, some 7, some 8800⟩,
     ⟨3, "C", 3, 3, some 9, some 9700⟩]
    10000
    (fun la _ => if la = 1 then FetchOutcome.response 200 (some 21)
                 else FetchOutcome.exn)
    0 ⟨1, "A", 1, 1, none, none⟩ 21
    (by decide) (by decide) (by decide) (by decide)

/-- Claim C2: a fresh entry (staleness test false) is left with its reading
and timestamp unchanged, no fetch is issued for it, and the staleness test is
exactly: timestamp unset, or `now` minus the timestamp at least 15 minutes. -/
theorem update_weather_fresh_entries_untouched
    (cities : List City) (now : Int) (net : Net) (i : Nat) (c : City)
    (hnd : (cities.map City.id).Nodup)
    (hi : cities[i]? = some c)
    (hfresh : isStale now c = false) :
    ((update_weather cities now net).cities)[i]? = some c
    ∧ c ∉ (update_weather cities now net).calls.map Prod.fst
    ∧ (∀ d : City, isStale now d = true ↔
        d.updated_at = none ∨ ∃ t, d.updated_at = some t ∧ fifteenMinutes ≤ now - t) := by
  refine ⟨?_, ?_, ?_⟩
  · rw [update_weather_cities_eq cities now net hnd, List.getElem?_map, hi]
    simp [stepCity, hfresh]
  · rw [update_weather_calls_eq, List.map_map]
    intro hmem
    rcases List.mem_map.mp hmem with ⟨u, hu, he⟩
    have huc : u = c := he
    rw [huc] at hu
    rw [(List.mem_filter.mp hu).2] at hfresh
    cases hfresh
  · intro d
    cases hd : d.updated_at with
    | none => simp [isStale, hd]
    | some t => simp [isStale, hd]

/-- Claim C2, instantiated: entry "C" was refreshed 5 minutes ago; the cycle
leaves it unchanged and issues no fetch for it. -/
theorem update_weather_fresh_entries_untouched_witness :
    ((update_weather
        [⟨1, "A", 1, 1, none, none⟩,
         ⟨2, "B", 2, 2, some 7, some 8800⟩,
         ⟨3, "C", 3, 3, some 9, some 9700⟩]
        10000
        (fun la _ => if la = 1 then FetchOutcome.response 200 (some 21)
                     else FetchOutcome.exn)).cities)[2]?
      = some ⟨3, "C", 3, 3, some 9, some 9700⟩
    ∧ (⟨3, "C", 3, 3, some 9, some 9700⟩ : City) ∉
        (update_weather
          [⟨1, "A", 1, 1, none, none⟩,
           ⟨2, "B", 2, 2, some 7, some 8800⟩,
           ⟨3, "C", 3, 3, some 9, some 9700⟩]
          10000
          (fun la _ => if la = 1 then FetchOutcome.response 200 (some 21)
                       else FetchOutcome.exn)).calls.map Prod.fst :=
  ⟨(update_weather_fresh_entries_untouched _ 10000 _ 2 ⟨3, "C", 3, 3, some 9, some 9700⟩
      (by decide) (by decide) (by decide)).1,
   (update_weather_fresh_entries_untouched _ 10000 _ 2 ⟨3, "C", 3, 3, some 9, some 9700⟩
      (by decide) (by decide) (by decide)).2.1⟩

/-- Claim C3: for every stale entry the refresh cycle issues exactly one
fetch, and that fetch is passed the entry's own latitude and longitude. -/
theorem update_weather_one_fetch_per_stale_entry
    (cities : List City) (now : Int) (net : Net) (c : City)
    (hnd : (cities.map City.id).Nodup)
    (hc : c ∈ cities)
    (hst : isStale now c = true) :
    (update_weather cities now net).calls.filter (fun q => decide (q.1 = c))
      = [(c, c.latitude, c.longitude)] := by
  rw [update_weather_calls_eq, List.filter_map]
  have hpf : ((fun q : City × ℚ × ℚ => decide (q.1 = c)) ∘
      (fun u : City => (u, u.latitude, u.longitude))) = fun u : City => decide (u = c) := rfl
  rw [hpf, List.filter_filter]
  have hcongr : cities.filter (fun a => decide (a = c) && isStale now a)
      = cities.filter (fun a => decide (a = c)) := by
    apply List.filter_congr
    intro x _
    by_cases hxc : x = c
    · subst hxc; simp [hst]
    · simp [hxc]
  rw [hcongr, filter_eq_self_singleton (List.Nodup.of_map City.id hnd) hc]
  rfl

/-- Claim C3, instantiated: stale entry "A" is fetched exactly once, with its
coordinates (1, 1). -/
theorem update_weather_one_fetch_per_stale_entry_witness :
    (update_weather
        [⟨1, "A", 1, 1, none, none⟩,
         ⟨2, "B", 2, 2, some 7, some 8800⟩,
         ⟨3, "C", 3, 3, some 9, some 9700⟩]
        10000
        (fun la _ => if la = 1 then FetchOutcome.response 200 (some 21)
                     else FetchOutcome.exn)).calls.filter
        (fun q => decide (q.1 = (⟨1, "A", 1, 1, none, none⟩ : City)))
      = [(⟨1, "A", 1, 1, none, none⟩, 1, 1)] :=
  update_weather_one_fetch_per_stale_entry _ 10000 _ ⟨1, "A", 1, 1, none, none⟩
    (by decide) (by decide) (by decide)

/-- Claim C4: a stale entry whose fetch returns `none` keeps exactly the
reading and timestamp it had before the cycle. -/
theorem update_weather_failed_fetch_preserves_entry
    (cities : List City) (now : Int) (net : Net) (i : Nat) (c : City)
    (hnd : (cities.map City.id).Nodup)
    (hi : cities[i]? = some c)
    (hst : isStale now c = true)
    (hv : fetch_weather net c.latitude c.longitude = none) :
    ((update_weather cities now net).cities)[i]? = some c := by
  rw [update_weather_cities_eq cities now net hnd, List.getElem?_map, hi]
  simp [stepCity, hst, hv]

/-- Claim C4, instantiated: stale entry "B" is fetched but the fetch fails;
its prior reading 7 and timestamp survive the cycle. -/
theorem update_weather_failed_fetch_preserves_entry_witness :
    ((update_weather
        [⟨1, "A", 1, 1, none, none⟩,
         ⟨2, "B", 2, 2, some 7, some 8800⟩,
         ⟨3, "C", 3, 3, some 9, some 9700⟩]
        10000
        (fun la _ => if la = 1 then FetchOutcome.response 200 (some 21)
                     else FetchOutcome.exn)).cities)[1]?
      = some ⟨2, "B", 2, 2, some 7, some 8800⟩ :=
  update_weather_failed_fetch_preserves_entry _ 10000 _ 1 ⟨2, "B", 2, 2, some 7, some 8800⟩
    (by decide) (by decide) (by decide) (by decide)

/-- Claim C5: when no entry is stale the refresh cycle issues no fetch,
performs no store write (no commit), and leaves every entry unchanged. -/
theorem update_weather_noop_when_no_stale
    (cities : List City) (now : Int) (net : Net)
    (h : ∀ c ∈ cities, isStale now c = false) :
    update_weather cities now net
      = { cities := cities, calls := [], committed := false } := by
  unfold update_weather
  have hnil : cities.filter (isStale now) = [] :=
    List.filter_eq_nil_iff.mpr (fun c hc => by simp [h c hc])
  simp [hnil]

/-- Claim C5, instantiated: a store whose single entry was refreshed 5
minutes ago passes through the cycle with no fetch, no commit, no change. -/
theorem update_weather_noop_when_no_stale_witness :
    update_weather [⟨3, "C", 3, 3, some 9, some 9700⟩] 10000
        (fun _ _ => FetchOutcome.exn)
      = { cities := [⟨3, "C", 3, 3, some 9, some 9700⟩], calls := [], committed := false } :=
  update_weather_noop_when_no_stale _ 10000 _ (by decide)

/-- Claim C6: `fetch_weather` is total (it never propagates an error) and
returns `none` on every failure path — a transport/parse exception, a non-200
status, or a missing temperature field — while it returns `some t` exactly
when the round trip yields a 200 response carrying temperature `t`. -/
theorem fetch_weather_returns_none_on_failure
    (net : Net) (latitude longitude : ℚ) :
    (net latitude longitude = FetchOutcome.exn →
        fetch_weather net latitude longitude = none)
    ∧ (∀ status temperature,
        net latitude longitude = FetchOutcome.response status temperature →
        status ≠ 200 → fetch_weather net latitude longitude = none)
    ∧ (net latitude longitude = FetchOutcome.response 200 none →
        fetch_weather net latitude longitude = none)
    ∧ (∀ t : ℚ, fetch_weather net latitude longitude = some t ↔
        net latitude longitude = FetchOutcome.response 200 (some t)) := by
  refine ⟨?_, ?_, ?_, ?_⟩
  · intro h
    unfold fetch_weather
    rw [h]
  · intro status temperature h hs
    unfold fetch_weather
    rw [h]
    simp [hs]
  · intro h
    unfold fetch_weather
    rw [h]
    simp
  · intro t
    constructor
    · intro h
      unfold fetch_weather at h
      cases hn : net latitude longitude with
      | exn => rw [hn] at h; cases h
      | response s temp =>
          rw [hn] at h
          by_cases hs : s = 200
          · subst hs
            have h2 : temp = some t := by simpa using h
            rw [h2]
          · exfalso
            simp [hs] at h
    · intro h
      unfold fetch_weather
      rw [h]
      simp

/-- Claim C6, instantiated on each outcome: exception, 404 status, missing
temperature field, and a successful 200 response. -/
theorem fetch_weather_returns_none_on_failure_witness :
    fetch_weather (fun _ _ => FetchOutcome.exn) 0 0 = none
    ∧ fetch_weather (fun _ _ => FetchOutcome.response 404 (some 5)) 0 0 = none
    ∧ fetch_weather (fun _ _ => FetchOutcome.response 200 none) 0 0 = none
    ∧ fetch_weather (fun _ _ => FetchOutcome.response 200 (some 21)) 0 0 = some 21 :=
  ⟨(fetch_weather_returns_none_on_failure _ 0 0).1 rfl,
   (fetch_weather_returns_none_on_failure _ 0 0).2.1 404 (some 5) rfl (by decide),
   (fetch_weather_returns_none_on_failure _ 0 0).2.2.1 rfl,
   ((fetch_weather_returns_none_on_failure _ 0 0).2.2.2 21).mpr rfl⟩

/-- Claim C7: every mutating operation — add, reset-to-seed, and the refresh
cycle — preserves the invariant that `temperature` is present iff
`updated_at` is present. -/
theorem mutations_preserve_reading_timestamp_invariant :
    (∀ (cities : List City) (newId : Nat) (n : String) (la lo : ℚ),
        (∀ c ∈ cities, cityInv c) →
        ∀ c ∈ add_city cities newId n la lo, cityInv c)
    ∧ (∀ (cities : List City) (defaults : List DefaultCity) (idStart : Nat),
        ∀ c ∈ reset_cities cities defaults idStart, cityInv c)
    ∧ (∀ (cities : List City) (now : Int) (net : Net),
        (∀ c ∈ cities, cityInv c) →
        ∀ c ∈ (update_weather cities now net).cities, cityInv c) := by
  refine ⟨?_, ?_, ?_⟩
  · intro cities newId n la lo h c hc
    unfold add_city at hc
    split at hc
    · exact h c hc
    · rcases List.mem_append.mp hc with h1 | h1
      · exact h c h1
      · rw [List.mem_singleton.mp h1]; rfl
  · intro cities defaults idStart c hc
    rcases List.mem_map.mp hc with ⟨p, _, he⟩
    rw [← he]; rfl
  · intro cities now net h c hc
    unfold update_weather at hc
    by_cases hE : (cities.filter (isStale now)).isEmpty
    · simp only [hE, if_true] at hc
      exact h c hc
    · simp only [hE, if_false] at hc
      exact foldl_apply_preserves_inv now _ cities h c hc

/-- Claim C7, instantiated: the row appended by add, a row materialized by
reset, and the row refreshed in the C1 scenario all satisfy the invariant. -/
theorem mutations_preserve_reading_timestamp_invariant_witness :
    cityInv ⟨2, "B", 5, 5, none, none⟩
    ∧ cityInv ⟨0, "P", 0, 0, none, none⟩
    ∧ cityInv ⟨1, "A", 1, 1, some 21, some 10000⟩ :=
  ⟨mutations_preserve_reading_timestamp_invariant.1
      [⟨1, "A", 1, 1, some 2, some 3⟩] 2 "B" 5 5 (by decide)
      ⟨2, "B", 5, 5, none, none⟩ (by decide),
   mutations_preserve_reading_timestamp_invariant.2.1
      [] [⟨1, "P", 0, 0⟩] 0 ⟨0, "P", 0, 0, none, none⟩ (by decide),
   mutations_preserve_reading_timestamp_invariant.2.2
      [⟨1, "A", 1, 1, none, none⟩,
       ⟨2, "B", 2, 2, some 7, some 8800⟩,
       ⟨3, "C", 3, 3, some 9, some 9700⟩]
      10000
      (fun la _ => if la = 1 then FetchOutcome.response 200 (some 21)
                   else FetchOutcome.exn)
      (by decide)
      ⟨1, "A", 1, 1, some 21, some 10000⟩ (by decide)⟩

/-- Claim C8: adding a name that is not yet tracked and then adding the same
name again leaves exactly one entry with that name, carrying the first add's
coordinates, with the rest of the store untouched. -/
theorem add_city_duplicate_name_ignored
    (cities : List City) (i j : Nat) (n : String) (a b x y : ℚ)
    (h : ∀ c ∈ cities, c.name ≠ n) :
    add_city (add_city cities i n a b) j n x y
        = cities ++ [(⟨i, n, a, b, none, none⟩ : City)]
    ∧ (add_city (add_city cities i n a b) j n x y).filter (fun c => c.name == n)
        = [(⟨i, n, a, b, none, none⟩ : City)] := by
  have h1 : add_city cities i n a b = cities ++ [(⟨i, n, a, b, none, none⟩ : City)] := by
    unfold add_city
    rw [if_neg]
    intro hc
    rcases List.any_eq_true.mp hc with ⟨c, hc1, hc2⟩
    exact h c hc1 (by simpa using hc2)
  have h2 : add_city (cities ++ [(⟨i, n, a, b, none, none⟩ : City)]) j n x y
      = cities ++ [(⟨i, n, a, b, none, none⟩ : City)] := by
    unfold add_city
    rw [if_pos]
    exact List.any_eq_true.mpr ⟨⟨i, n, a, b, none, none⟩, by simp, by simp⟩
  constructor
  · rw [h1, h2]
  · rw [h1, h2, List.filter_append]
    have hnil : cities.filter (fun c => c.name == n) = [] :=
      List.filter_eq_nil_iff.mpr (fun c hc => by simp [h c hc])
    rw [hnil]
    simp

/-- Claim C8, instantiated: add("X",1,2) then add("X",9,9) on an empty store
yields exactly one entry "X" with coordinates (1,2). -/
theorem add_city_duplicate_name_ignored_witness :
    add_city (add_city [] 1 "X" 1 2) 2 "X" 9 9 = [⟨1, "X", 1, 2, none, none⟩]
    ∧ (add_city (add_city [] 1 "X" 1 2) 2 "X" 9 9).filter (fun c => c.name == "X")
        = [⟨1, "X", 1, 2, none, none⟩] :=
  ⟨(add_city_duplicate_name_ignored [] 1 2 "X" 1 2 9 9 (by decide)).1,
   (add_city_duplicate_name_ignored [] 1 2 "X" 1 2 9 9 (by decide)).2⟩

/-- Claim C9: reset replaces the tracked set with exactly the seed list —
same names and coordinates in order, reading and timestamp unset — and the
result does not depend on the prior tracked set. -/
theorem reset_cities_replaces_with_seed
    (cities : List City) (defaults : List DefaultCity) (idStart : Nat) :
    (reset_cities cities defaults idStart).map (fun c => (c.name, c.latitude, c.longitude))
        = defaults.map (fun d => (d.name, d.latitude, d.longitude))
    ∧ (∀ c ∈ reset_cities cities defaults idStart,
        c.temperature = none ∧ c.updated_at = none)
    ∧ (∀ prior : List City,
        reset_cities prior defaults idStart = reset_cities cities defaults idStart) := by
  refine ⟨?_, ?_, fun _ => rfl⟩
  · unfold reset_cities
    rw [List.map_map]
    have hcomp : ((fun c : City => (c.name, c.latitude, c.longitude)) ∘
        (fun p : Nat × DefaultCity =>
          ({ id := idStart + p.1, name := p.2.name, latitude := p.2.latitude,
             longitude := p.2.longitude, temperature := none, updated_at := none } : City)))
        = (fun d : DefaultCity => (d.name, d.latitude, d.longitude)) ∘ Prod.snd := rfl
    rw [hcomp, ← List.map_map, List.enum_map_snd]
  · intro c hc
    rcases List.mem_map.mp hc with ⟨p, _, he⟩
    rw [← he]
    exact ⟨rfl, rfl⟩

/-- Claim C9, instantiated: resetting a store tracking "Z" against the seed
[P, Q] yields exactly P and Q with unset reading and timestamp. -/
theorem reset_cities_replaces_with_seed_witness :
    (reset_cities [⟨9, "Z", 5, 5, some 1, some 2⟩]
        [⟨1, "P", 0, 0⟩, ⟨2, "Q", 1, 1⟩] 0).map
        (fun c => (c.name, c.latitude, c.longitude))
      = [("P", 0, 0), ("Q", 1, 1)]
    ∧ ((⟨0, "P", 0, 0, none, none⟩ : City).temperature = none
        ∧ (⟨0, "P", 0, 0, none, none⟩ : City).updated_at = none)
    ∧ reset_cities [] [⟨1, "P", 0, 0⟩, ⟨2, "Q", 1, 1⟩] 0
        = reset_cities [⟨9, "Z", 5, 5, some 1, some 2⟩]
            [⟨1, "P", 0, 0⟩, ⟨2, "Q", 1, 1⟩] 0 :=
  ⟨(reset_cities_replaces_with_seed [⟨9, "Z", 5, 5, some 1, some 2⟩]
      [⟨1, "P", 0, 0⟩, ⟨2, "Q", 1, 1⟩] 0).1,
   (reset_cities_replaces_with_seed [⟨9, "Z", 5, 5, some 1, some 2⟩]
      [⟨1, "P", 0, 0⟩, ⟨2, "Q", 1, 1⟩] 0).2.1
      ⟨0, "P", 0, 0, none, none⟩ (by decide),
   (reset_cities_replaces_with_seed [⟨9, "Z", 5, 5, some 1, some 2⟩]
      [⟨1, "P", 0, 0⟩, ⟨2, "Q", 1, 1⟩] 0).2.2 []⟩

/-- Claim C10: `fetch_all_weather` returns one result per input city, the
i-th result being the fetch for the i-th city, and in the refresh cycle each
zipped (stale entry, temperature) pair carries that entry's own fetch
result. -/
theorem fetch_all_weather_positional_correspondence
    (net : Net) (cities : List City) (now : Int) :
    (fetch_all_weather net cities).length = cities.length
    ∧ (∀ (i : Nat) (c : City), cities[i]? = some c →
        (fetch_all_weather net cities)[i]?
          = some (fetch_weather net c.latitude c.longitude))
    ∧ (∀ p ∈ (cities.filter (isStale now)).zip
          (fetch_all_weather net (cities.filter (isStale now))),
        p.2 = fetch_weather net p.1.latitude p.1.longitude) := by
  refine ⟨List.length_map cities _, ?_, ?_⟩
  · intro i c hi
    unfold fetch_all_weather
    rw [List.getElem?_map, hi]
    rfl
  · intro p hp
    unfold fetch_all_weather at hp
    rw [zip_self_map] at hp
    rcases List.mem_map.mp hp with ⟨u, _, he⟩
    rw [← he]

/-- Claim C10, instantiated on the C1 scenario: the result list has length 3
and its first element is the fetch for the first city; the zipped pair for
the stale entry "A" carries A's fetch result. -/
theorem fetch_all_weather_positional_correspondence_witness :
    (fetch_all_weather
        (fun la _ => if la = 1 then FetchOutcome.response 200 (some 21)
                     else FetchOutcome.exn)
        [⟨1, "A", 1, 1, none, none⟩,
         ⟨2, "B", 2, 2, some 7, some 8800⟩,
         ⟨3, "C", 3, 3, some 9, some 9700⟩]).length = 3
    ∧ (fetch_all_weather
        (fun la _ => if la = 1 then FetchOutcome.response 200 (some 21)
                     else FetchOutcome.exn)
        [⟨1, "A", 1, 1, none, none⟩,
         ⟨2, "B", 2, 2, some 7, some 8800⟩,
         ⟨3, "C", 3, 3, some 9, some 9700⟩])[0]? = some (some 21)
    ∧ ((⟨1, "A", 1, 1, none, none⟩ : City), (some 21 : Option ℚ)).2
        = fetch_weather
            (fun la _ => if la = 1 then FetchOutcome.response 200 (some 21)
                         else FetchOutcome.exn) 1 1 :=
  ⟨(fetch_all_weather_positional_correspondence _
      [⟨1, "A", 1, 1, none, none⟩,
       ⟨2, "B", 2, 2, some 7, some 8800⟩,
       ⟨3, "C", 3, 3, some 9, some 9700⟩] 10000).1,
   (fetch_all_weather_positional_correspondence _
      [⟨1, "A", 1, 1, none, none⟩,
       ⟨2, "B", 2, 2, some 7, some 8800⟩,
       ⟨3, "C", 3, 3, some 9, some 9700⟩] 10000).2.1 0
      ⟨1, "A", 1, 1, none, none⟩ (by decide),
   (fetch_all_weather_positional_correspondence _
      [⟨1, "A", 1, 1, none, none⟩,
       ⟨2, "B", 2, 2, some 7, some 8800⟩,
       ⟨3, "C", 3, 3, some 9, some 9700⟩] 10000).2.2
      (⟨1, "A", 1, 1, none, none⟩, some 21) (by decide)⟩

end Weather
